import Mathlib

/-!
Shallow embedding of the frogger clone (js/main.js): collision geometry
(`GameElementBoundaries`), the event bus, the player, the enemies and the
game controller wiring. Collision-geometry pixel coordinates and the
player's grid coordinates are modelled with ℤ; the enemy's continuous
horizontal position and wall-clock time, which involve division by 1000,
are modelled with ℚ (idealised JavaScript numbers).
-/

namespace Frogger

/-- Boundary record of a game element, as built by the
`GameElementBoundaries` constructor: the four corners derived from the
element's position and size, plus the four collision thresholds. -/
structure GameElementBoundaries where
  topLeft : ℤ × ℤ
  topRight : ℤ × ℤ
  bottomLeft : ℤ × ℤ
  bottomRight : ℤ × ℤ
  leftThreshold : ℤ
  rightThreshold : ℤ
  topThreshold : ℤ
  bottomThreshold : ℤ
deriving DecidableEq

/-- The `GameElementBoundaries` constructor: from position `(x, y)`,
size `(width, height)` and the four thresholds (defaulting to 0 in the
source when the caller passes none). -/
def mkBoundaries (x y width height lt rt tt bt : ℤ) : GameElementBoundaries :=
  { topLeft := (x, y)
    topRight := (x + width, y)
    bottomLeft := (x, y + height)
    bottomRight := (x + width, y + height)
    leftThreshold := lt
    rightThreshold := rt
    topThreshold := tt
    bottomThreshold := bt }

/-- Source `_checkTopRightCollision`: the other element's bottom-left and
top-right corners against this element's top-right corner. -/
def checkTopRightCollision (b : GameElementBoundaries) (bl tr : ℤ × ℤ) : Bool :=
  let localTR := b.topRight
  let xCollision := decide (bl.1 + b.rightThreshold ≤ localTR.1) && decide (tr.1 ≥ localTR.1)
  let yCollision := decide (tr.2 ≤ localTR.2) && decide (bl.2 - b.topThreshold ≥ localTR.2)
  xCollision && yCollision

/-- Source `_checkTopLeftCollision`: the other element's bottom-right and
top-left corners against this element's top-left corner. -/
def checkTopLeftCollision (b : GameElementBoundaries) (br tl : ℤ × ℤ) : Bool :=
  let localTL := b.topLeft
  let xCollision := decide (tl.1 ≤ localTL.1) && decide (br.1 - b.leftThreshold ≥ localTL.1)
  let yCollision := decide (tl.2 ≤ localTL.2) && decide (br.2 - b.topThreshold ≥ localTL.2)
  xCollision && yCollision

/-- Source `_checkBottomRightCollision`: the other element's bottom-right
and top-left corners against this element's bottom-right corner. -/
def checkBottomRightCollision (b : GameElementBoundaries) (br tl : ℤ × ℤ) : Bool :=
  let localBR := b.bottomRight
  let xCollision := decide (tl.1 + b.rightThreshold ≤ localBR.1) && decide (br.1 ≥ localBR.1)
  let yCollision := decide (tl.2 + b.bottomThreshold ≤ localBR.2) && decide (br.2 ≥ localBR.2)
  xCollision && yCollision

/-- Source `_checkBottomLeftCollision`: the other element's bottom-left and
top-right corners against this element's bottom-left corner. -/
def checkBottomLeftCollision (b : GameElementBoundaries) (bl tr : ℤ × ℤ) : Bool :=
  let localBL := b.bottomLeft
  let xCollision := decide (bl.1 ≤ localBL.1) && decide (tr.1 - b.leftThreshold ≥ localBL.1)
  let yCollision := decide (tr.2 + b.bottomThreshold ≤ localBL.2) && decide (bl.2 ≥ localBL.2)
  xCollision && yCollision

/-- Source `checkCollision`: disjunction of the four directional corner
checks, each fed the documented corners of the other boundary. -/
def checkCollision (a b : GameElementBoundaries) : Bool :=
  checkTopRightCollision a b.bottomLeft b.topRight ||
  checkTopLeftCollision a b.bottomRight b.topLeft ||
  checkBottomRightCollision a b.bottomRight b.topLeft ||
  checkBottomLeftCollision a b.bottomLeft b.topRight

/-- A 100 by 100 reference rectangle at the origin carrying the same
tolerance `t` on all four sides. -/
def tolBoundary (t : ℤ) : GameElementBoundaries :=
  mkBoundaries 0 0 100 100 t t t t

/-- Another rectangle, with the default (zero) thresholds, as the source
builds for the elements the player is compared against. -/
def otherRect (px py pw ph : ℤ) : GameElementBoundaries :=
  mkBoundaries px py pw ph 0 0 0 0

/-- Refinement form of the fourth directional test, following the claim's
wording: B's bottom-left and top-right corners against A's bottom-left
corner, with `leftThreshold` horizontally and `bottomThreshold`
vertically. -/
def checkBottomLeftCollisionSpecForm (b : GameElementBoundaries) (bl tr : ℤ × ℤ) : Bool :=
  let localBL := b.bottomLeft
  let xCollision := decide (bl.1 ≤ localBL.1) && decide (tr.1 - b.leftThreshold ≥ localBL.1)
  let yCollision := decide (tr.2 + b.bottomThreshold ≤ localBL.2) && decide (bl.2 ≥ localBL.2)
  xCollision && yCollision

/-- The other observed variant of the fourth directional test: it applies
`rightThreshold` to B's bottom-left corner on the horizontal axis. -/
def checkBottomLeftCollisionRightVariant (b : GameElementBoundaries) (bl tr : ℤ × ℤ) : Bool :=
  let localBL := b.bottomLeft
  let xCollision := decide (bl.1 + b.rightThreshold ≤ localBL.1) && decide (tr.1 ≥ localBL.1)
  let yCollision := decide (tr.2 + b.bottomThreshold ≤ localBL.2) && decide (bl.2 ≥ localBL.2)
  xCollision && yCollision

/-!
Generic event-bus model (class `EventBus`). The JS `Map` from event name
to a `Set` of observers is an association list from event name to a
duplicate-free list in insertion order; observers are identified by
natural numbers, their behaviour given separately as state transformers.
`await` chaining of the single-threaded runtime is modelled by the
sequential fold: handler `i+1` runs on the state left by handler `i`.
-/

/-- Insertion into a JS `Set`: append if absent, otherwise unchanged. -/
def setInsert (l : List ℕ) (h : ℕ) : List ℕ :=
  if h ∈ l then l else l ++ [h]

/-- Source `EventBus.observeEvent`: create the event's observer set when
missing, then add the observer to it. -/
def busObserveEvent (events : List (String × List ℕ)) (e : String) (h : ℕ) :
    List (String × List ℕ) :=
  match events with
  | [] => [(e, [h])]
  | (k, hs) :: rest =>
      if k = e then (k, setInsert hs h) :: rest else (k, hs) :: busObserveEvent rest e h

/-- The observer set stored for an event, empty when the event was never
observed (the source returns early in that case). -/
def busObserversOf (events : List (String × List ℕ)) (e : String) : List ℕ :=
  match events with
  | [] => []
  | (k, hs) :: rest => if k = e then hs else busObserversOf rest e

/-- Source `EventBus.emitEvent`: run every observer of the event in order,
each one awaited on the state left by the previous one; also return the
invocation trace. -/
def busEmitEvent {σ : Type} (events : List (String × List ℕ)) (e : String)
    (applyHandler : ℕ → σ → σ) (st : σ) : σ × List ℕ :=
  let observers := busObserversOf events e
  (observers.foldl (fun acc h => applyHandler h acc) st, observers)

/-- A bus built by performing a sequence of registrations on a fresh bus. -/
def buildBus (regs : List (String × ℕ)) : List (String × List ℕ) :=
  regs.foldl (fun ev r => busObserveEvent ev r.1 r.2) []

/-- The observers registered for an event by a registration sequence, in
first-registration order with duplicates dropped. -/
def registeredFor (e : String) (regs : List (String × ℕ)) : List ℕ :=
  regs.foldl (fun acc r => if r.1 = e then setInsert acc r.2 else acc) []

/-!
Game-state model: the concrete entities of `FroggerGame` and the
observers each constructor registers on the shared bus, in registration
order (`FieldElement`, then `Player`, then the four `Enemy` instances,
then `FroggerGame._registerGameEvents`).
-/

/-- The five game events; `change_character` carries the chosen sprite
url as payload. -/
inductive GameEvent where
  | stop
  | win
  | lose
  | changeCharacter (url : String)
  | reset
deriving DecidableEq

/-- Who published an event (`source` argument of `emitEvent`). -/
inductive EventSource where
  | playerSource
  | gameSource
  | comboboxSource
deriving DecidableEq

/-- Player state: grid coordinates, the captured construction-time
`initialSquarePosition`, the sprite url and the stop flag. -/
structure PlayerState where
  x : ℤ
  y : ℤ
  initialX : ℤ
  initialY : ℤ
  charImage : String
  stopped : Bool
deriving DecidableEq

/-- Enemy state: lane row, continuous horizontal position, speed factor
`increase`, the `lastUpdate` clock value in milliseconds and the stop
flag. -/
structure EnemyState where
  row : ℤ
  x : ℚ
  increase : ℚ
  lastUpdate : ℚ
  stopped : Bool
deriving DecidableEq

/-- Field overlay state. -/
structure FieldState where
  drawWin : Bool
  drawLose : Bool
deriving DecidableEq

/-- Whole-game state: the entities, the current wall clock in
milliseconds, the timers scheduled by `sleep(...).then(...)` as
(due time, event) pairs, and the log of every `emitEvent` call. -/
structure GameState where
  field : FieldState
  player : PlayerState
  enemies : List EnemyState
  now : ℚ
  timers : List (ℚ × GameEvent)
  published : List (GameEvent × EventSource)
deriving DecidableEq

/-- Field RESET observer. -/
def fieldOnReset (f : FieldState) : FieldState :=
  { f with drawWin := false, drawLose := false }

/-- Field WIN observer. -/
def fieldOnWin (f : FieldState) : FieldState :=
  { f with drawWin := true }

/-- Field LOSE observer. -/
def fieldOnLose (f : FieldState) : FieldState :=
  { f with drawLose := true }

/-- Player CHANGE_CHARACTER observer. -/
def playerOnChangeCharacter (url : String) (p : PlayerState) : PlayerState :=
  { p with charImage := url }

/-- Player RESET observer: restore the captured initial square position
and clear the stop flag. -/
def playerOnReset (p : PlayerState) : PlayerState :=
  { p with x := p.initialX, y := p.initialY, stopped := false }

/-- Player STOP observer. -/
def playerOnStop (p : PlayerState) : PlayerState :=
  { p with stopped := true }

/-- Enemy RESET observer: `x := -101`, clear the stop flag. The
`lastUpdate` clock is NOT touched by the source. -/
def enemyOnReset (e : EnemyState) : EnemyState :=
  { e with x := -101, stopped := false }

/-- Enemy STOP observer. -/
def enemyOnStop (e : EnemyState) : EnemyState :=
  { e with stopped := true }

/-- Append one `emitEvent` call to the publish log. -/
def logPublish (e : GameEvent) (src : EventSource) (s : GameState) : GameState :=
  { s with published := s.published ++ [(e, src)] }

/-- Publishing STOP: the registered observers in registration order are
the player's and then each enemy's. -/
def emitStop (src : EventSource) (s : GameState) : GameState :=
  let s0 := logPublish GameEvent.stop src s
  { s0 with player := playerOnStop s0.player, enemies := s0.enemies.map enemyOnStop }

/-- Body of the game controller's WIN and LOSE observers: publish STOP
(awaited to completion), then schedule a RESET publish 2000 ms later. -/
def gameOnWinLose (s : GameState) : GameState :=
  let s1 := emitStop EventSource.gameSource s
  { s1 with timers := s1.timers ++ [(s1.now + 2000, GameEvent.reset)] }

/-- Publishing an event on the game's bus: run the observers registered
for it in registration order. -/
def emitEvent (e : GameEvent) (src : EventSource) (s : GameState) : GameState :=
  match e with
  | GameEvent.stop => emitStop src s
  | GameEvent.win =>
      let s0 := logPublish GameEvent.win src s
      let s1 := { s0 with field := fieldOnWin s0.field }
      gameOnWinLose s1
  | GameEvent.lose =>
      let s0 := logPublish GameEvent.lose src s
      let s1 := { s0 with field := fieldOnLose s0.field }
      gameOnWinLose s1
  | GameEvent.changeCharacter url =>
      let s0 := logPublish (GameEvent.changeCharacter url) src s
      { s0 with player := playerOnChangeCharacter url s0.player }
  | GameEvent.reset =>
      let s0 := logPublish GameEvent.reset src s
      { s0 with field := fieldOnReset s0.field,
                player := playerOnReset s0.player,
                enemies := s0.enemies.map enemyOnReset }

/-- Source `Player._moveUp`: no-op when stopped; step up when above row
0; publish WIN whenever the row is 0 after the step. -/
def moveUp (s : GameState) : GameState :=
  if s.player.stopped then s
  else
    let p := if 0 < s.player.y then { s.player with y := s.player.y - 1 } else s.player
    let s1 := { s with player := p }
    if p.y = 0 then emitEvent GameEvent.win EventSource.playerSource s1 else s1

/-- Source `Player._moveDown`. -/
def moveDown (s : GameState) : GameState :=
  if s.player.stopped then s
  else if s.player.y < 5 then { s with player := { s.player with y := s.player.y + 1 } }
  else s

/-- Source `Player._moveLeft`. -/
def moveLeft (s : GameState) : GameState :=
  if s.player.stopped then s
  else if 0 < s.player.x then { s with player := { s.player with x := s.player.x - 1 } }
  else s

/-- Source `Player._moveRight`. -/
def moveRight (s : GameState) : GameState :=
  if s.player.stopped then s
  else if s.player.x < 4 then { s with player := { s.player with x := s.player.x + 1 } }
  else s

/-- Source `Enemy._updatePosition` at wall-clock `now`: no-op when
stopped, otherwise integrate `increase` over the seconds elapsed since
`lastUpdate`, advance `lastUpdate`, and wrap to -101 past 505. -/
def updatePosition (now : ℚ) (e : EnemyState) : EnemyState :=
  if e.stopped then e
  else
    let timePassed := (now - e.lastUpdate) / 1000
    let x1 := e.x + e.increase * timePassed
    { e with lastUpdate := now, x := if x1 > 505 then -101 else x1 }

/-- An enemy as built by the `Enemy` constructor at wall-clock `t0`. -/
def mkEnemy (t0 : ℚ) (row : ℤ) (increase : ℚ) : EnemyState :=
  { row := row, x := -101, increase := increase, lastUpdate := t0, stopped := false }

/-- The game as wired by `FroggerGame._createGameElements` at wall-clock
`t0`: player at square (2, 5), four enemies on rows 1, 2, 1, 3 with
speeds 20, 200, 400, 300. -/
def initialGameState (t0 : ℚ) : GameState :=
  { field := { drawWin := false, drawLose := false }
    player := { x := 2, y := 5, initialX := 2, initialY := 5,
                charImage := "img/char-boy.png", stopped := false }
    enemies := [mkEnemy t0 1 20, mkEnemy t0 2 200, mkEnemy t0 1 400, mkEnemy t0 3 300]
    now := t0
    timers := []
    published := [] }

/-- The player's logical coordinates lie inside the 5-column by 6-row
grid. -/
def inGrid (p : PlayerState) : Prop :=
  0 ≤ p.x ∧ p.x ≤ 4 ∧ 0 ≤ p.y ∧ p.y ≤ 5

instance (p : PlayerState) : Decidable (inGrid p) := by
  unfold inGrid
  infer_instance

/-- Fixture: a running game whose player stands one row below the goal. -/
def nearGoalState : GameState :=
  { initialGameState 0 with
    player := { x := 2, y := 1, initialX := 2, initialY := 5,
                charImage := "img/char-boy.png", stopped := false } }

/-- Fixture: a running game whose player already stands on the goal row. -/
def atGoalState : GameState :=
  { initialGameState 0 with
    player := { x := 2, y := 0, initialX := 2, initialY := 5,
                charImage := "img/char-boy.png", stopped := false } }

/-- Fixture: a game whose player has been stopped. -/
def stoppedState : GameState :=
  { initialGameState 0 with
    player := { x := 2, y := 3, initialX := 2, initialY := 5,
                charImage := "img/char-boy.png", stopped := true } }

/-- Fixture for the freeze scenario: the first enemy (speed 20) after an
update at t=1000 ms, a STOP, two frozen draws at t=2000 and t=3000 ms,
and the RESET (unfreeze) at t=3000 ms. -/
def frozenResumeEnemy : EnemyState :=
  enemyOnReset (updatePosition 3000 (updatePosition 2000 (enemyOnStop
    (updatePosition 1000 (mkEnemy 0 1 20)))))

/-!
Theorems. The eight `collision...Iff` lemmas characterise the collision
boundary for one axis of one directional corner check: a probe rectangle
overlapping the reference rectangle by `d` pixels on that axis (and
generously on the other axis) collides exactly when `t ≤ d`.
-/

theorem collisionTRxIff (t d : ℤ) (ht1 : 1 ≤ t) (ht2 : t ≤ 50) (hd1 : 0 ≤ d) (hd2 : d ≤ 50) :
    checkCollision (tolBoundary t) (otherRect (100 - d) (-50) 100 100) = true ↔ t ≤ d := by
  simp [checkCollision, checkTopRightCollision, checkTopLeftCollision,
    checkBottomRightCollision, checkBottomLeftCollision, tolBoundary, otherRect, mkBoundaries]
  omega

theorem collisionTRyIff (t d : ℤ) (ht1 : 1 ≤ t) (ht2 : t ≤ 50) (hd1 : 0 ≤ d) (hd2 : d ≤ 50) :
    checkCollision (tolBoundary t) (otherRect 2 (d - 100) 100 100) = true ↔ t ≤ d := by
  simp [checkCollision, checkTopRightCollision, checkTopLeftCollision,
    checkBottomRightCollision, checkBottomLeftCollision, tolBoundary, otherRect, mkBoundaries]
  omega

theorem collisionTLxIff (t d : ℤ) (ht1 : 1 ≤ t) (ht2 : t ≤ 50) (hd1 : 0 ≤ d) (hd2 : d ≤ 50) :
    checkCollision (tolBoundary t) (otherRect (d - 100) (-50) 100 100) = true ↔ t ≤ d := by
  simp [checkCollision, checkTopRightCollision, checkTopLeftCollision,
    checkBottomRightCollision, checkBottomLeftCollision, tolBoundary, otherRect, mkBoundaries]
  omega

theorem collisionTLyIff (t d : ℤ) (ht1 : 1 ≤ t) (ht2 : t ≤ 50) (hd1 : 0 ≤ d) (hd2 : d ≤ 50) :
    checkCollision (tolBoundary t) (otherRect (-2) (d - 100) 60 100) = true ↔ t ≤ d := by
  simp [checkCollision, checkTopRightCollision, checkTopLeftCollision,
    checkBottomRightCollision, checkBottomLeftCollision, tolBoundary, otherRect, mkBoundaries]
  omega

theorem collisionBRxIff (t d : ℤ) (ht1 : 1 ≤ t) (ht2 : t ≤ 50) (hd1 : 0 ≤ d) (hd2 : d ≤ 50) :
    checkCollision (tolBoundary t) (otherRect (100 - d) 50 100 100) = true ↔ t ≤ d := by
  simp [checkCollision, checkTopRightCollision, checkTopLeftCollision,
    checkBottomRightCollision, checkBottomLeftCollision, tolBoundary, otherRect, mkBoundaries]
  omega

theorem collisionBRyIff (t d : ℤ) (ht1 : 1 ≤ t) (ht2 : t ≤ 50) (hd1 : 0 ≤ d) (hd2 : d ≤ 50) :
    checkCollision (tolBoundary t) (otherRect 2 (100 - d) 100 100) = true ↔ t ≤ d := by
  simp [checkCollision, checkTopRightCollision, checkTopLeftCollision,
    checkBottomRightCollision, checkBottomLeftCollision, tolBoundary, otherRect, mkBoundaries]
  omega

theorem collisionBLxIff (t d : ℤ) (ht1 : 1 ≤ t) (ht2 : t ≤ 50) (hd1 : 0 ≤ d) (hd2 : d ≤ 50) :
    checkCollision (tolBoundary t) (otherRect (d - 100) 50 100 100) = true ↔ t ≤ d := by
  simp [checkCollision, checkTopRightCollision, checkTopLeftCollision,
    checkBottomRightCollision, checkBottomLeftCollision, tolBoundary, otherRect, mkBoundaries]
  omega

theorem collisionBLyIff (t d : ℤ) (ht1 : 1 ≤ t) (ht2 : t ≤ 50) (hd1 : 0 ≤ d) (hd2 : d ≤ 50) :
    checkCollision (tolBoundary t) (otherRect (-2) (100 - d) 60 100) = true ↔ t ≤ d := by
  simp [checkCollision, checkTopRightCollision, checkTopLeftCollision,
    checkBottomRightCollision, checkBottomLeftCollision, tolBoundary, otherRect, mkBoundaries]
  omega

/-- C1: counterexample. With tolerance 2 on every side, a probe rectangle
whose horizontal overlap with the reference rectangle is exactly 2 pixels
(the claim says such an overlap must NOT register) does register a
collision: the comparisons in the source are inclusive. -/
theorem C1_exact_tolerance_overlap_collides :
    (100 : ℤ) - 98 = 2 ∧
    checkCollision (tolBoundary 2) (otherRect 98 (-50) 100 100) = true := by
  exact ⟨by decide, by decide⟩

/-- C1 (amended): with the same tolerance `t` on all four sides, two
rectangles overlapping by exactly `t` pixels on one axis DO register a
collision, while rectangles overlapping by `t - 1` pixels on that axis do
not; this inclusive-at-`t` boundary holds on both axes of each of the
four directional corner checks independently (shown for 100 by 100
rectangles with 1 ≤ t ≤ 50, the tolerance smaller than the rectangle). -/
theorem C1_tolerance_boundary_inclusive (t : ℤ) (ht1 : 1 ≤ t) (ht2 : t ≤ 50) :
    (checkCollision (tolBoundary t) (otherRect (100 - t) (-50) 100 100) = true
      ∧ checkCollision (tolBoundary t) (otherRect (100 - (t - 1)) (-50) 100 100) = false)
    ∧ (checkCollision (tolBoundary t) (otherRect 2 (t - 100) 100 100) = true
      ∧ checkCollision (tolBoundary t) (otherRect 2 ((t - 1) - 100) 100 100) = false)
    ∧ (checkCollision (tolBoundary t) (otherRect (t - 100) (-50) 100 100) = true
      ∧ checkCollision (tolBoundary t) (otherRect ((t - 1) - 100) (-50) 100 100) = false)
    ∧ (checkCollision (tolBoundary t) (otherRect (-2) (t - 100) 60 100) = true
      ∧ checkCollision (tolBoundary t) (otherRect (-2) ((t - 1) - 100) 60 100) = false)
    ∧ (checkCollision (tolBoundary t) (otherRect (100 - t) 50 100 100) = true
      ∧ checkCollision (tolBoundary t) (otherRect (100 - (t - 1)) 50 100 100) = false)
    ∧ (checkCollision (tolBoundary t) (otherRect 2 (100 - t) 100 100) = true
      ∧ checkCollision (tolBoundary t) (otherRect 2 (100 - (t - 1)) 100 100) = false)
    ∧ (checkCollision (tolBoundary t) (otherRect (t - 100) 50 100 100) = true
      ∧ checkCollision (tolBoundary t) (otherRect ((t - 1) - 100) 50 100 100) = false)
    ∧ (checkCollision (tolBoundary t) (otherRect (-2) (100 - t) 60 100) = true
      ∧ checkCollision (tolBoundary t) (otherRect (-2) (100 - (t - 1)) 60 100) = false) := by
  refine ⟨⟨?_, ?_⟩, ⟨?_, ?_⟩, ⟨?_, ?_⟩, ⟨?_, ?_⟩, ⟨?_, ?_⟩, ⟨?_, ?_⟩, ⟨?_, ?_⟩, ⟨?_, ?_⟩⟩
  · rw [collisionTRxIff t t ht1 ht2 (by omega) (by omega)]
  · rw [← Bool.not_eq_true, collisionTRxIff t (t - 1) ht1 ht2 (by omega) (by omega)]; omega
  · rw [collisionTRyIff t t ht1 ht2 (by omega) (by omega)]
  · rw [← Bool.not_eq_true, collisionTRyIff t (t - 1) ht1 ht2 (by omega) (by omega)]; omega
  · rw [collisionTLxIff t t ht1 ht2 (by omega) (by omega)]
  · rw [← Bool.not_eq_true, collisionTLxIff t (t - 1) ht1 ht2 (by omega) (by omega)]; omega
  · rw [collisionTLyIff t t ht1 ht2 (by omega) (by omega)]
  · rw [← Bool.not_eq_true, collisionTLyIff t (t - 1) ht1 ht2 (by omega) (by omega)]; omega
  · rw [collisionBRxIff t t ht1 ht2 (by omega) (by omega)]
  · rw [← Bool.not_eq_true, collisionBRxIff t (t - 1) ht1 ht2 (by omega) (by omega)]; omega
  · rw [collisionBRyIff t t ht1 ht2 (by omega) (by omega)]
  · rw [← Bool.not_eq_true, collisionBRyIff t (t - 1) ht1 ht2 (by omega) (by omega)]; omega
  · rw [collisionBLxIff t t ht1 ht2 (by omega) (by omega)]
  · rw [← Bool.not_eq_true, collisionBLxIff t (t - 1) ht1 ht2 (by omega) (by omega)]; omega
  · rw [collisionBLyIff t t ht1 ht2 (by omega) (by omega)]
  · rw [← Bool.not_eq_true, collisionBLyIff t (t - 1) ht1 ht2 (by omega) (by omega)]; omega

/-- C1 witness: the amended boundary behaviour at the concrete tolerance 2. -/
theorem C1_tolerance_boundary_inclusive_witness :
    (1 : ℤ) ≤ 2 ∧ (2 : ℤ) ≤ 50 ∧
    checkCollision (tolBoundary 2) (otherRect (100 - 2) (-50) 100 100) = true :=
  ⟨by decide, by decide, (C1_tolerance_boundary_inclusive 2 (by decide) (by decide)).1.1⟩

/-- C8: the fourth (bottom-left) directional test agrees everywhere with
the claim's form (B's bottom-left and top-right against A's bottom-left,
`leftThreshold` horizontally, `bottomThreshold` vertically), and differs
from the `rightThreshold` variant at a boundary whose left and right
thresholds disagree. -/
theorem C8_bottom_left_uses_left_threshold :
    (∀ (b : GameElementBoundaries) (bl tr : ℤ × ℤ),
        checkBottomLeftCollision b bl tr = checkBottomLeftCollisionSpecForm b bl tr)
    ∧ checkBottomLeftCollision (mkBoundaries 0 0 10 10 0 5 0 0) (-3, 15) (4, 8) = true
    ∧ checkBottomLeftCollisionRightVariant (mkBoundaries 0 0 10 10 0 5 0 0) (-3, 15) (4, 8)
        = false :=
  ⟨fun b bl tr => rfl, by decide, by decide⟩

/-- C9: the collision predicate is reflexive under zero thresholds: any
rectangle with non-negative width and height collides with an identical
copy of itself when all four thresholds are 0. -/
theorem C9_reflexive_zero_thresholds (x y w h : ℤ) (hw : 0 ≤ w) (hh : 0 ≤ h) :
    checkCollision (mkBoundaries x y w h 0 0 0 0) (mkBoundaries x y w h 0 0 0 0) = true := by
  simp [checkCollision, checkTopRightCollision, checkTopLeftCollision,
    checkBottomRightCollision, checkBottomLeftCollision, mkBoundaries]
  omega

/-- C9 witness: reflexivity at a concrete rectangle. -/
theorem C9_reflexive_zero_thresholds_witness :
    (0 : ℤ) ≤ 10 ∧ (0 : ℤ) ≤ 20 ∧
    checkCollision (mkBoundaries 3 7 10 20 0 0 0 0) (mkBoundaries 3 7 10 20 0 0 0 0) = true :=
  ⟨by decide, by decide, C9_reflexive_zero_thresholds 3 7 10 20 (by decide) (by decide)⟩

/-- C2: the code violates the claim. In the freeze scenario (last genuine
update at t=1000 ms, frozen through t=3000 ms, unfrozen by RESET at
t=3000 ms), the `lastUpdate` clock still holds the stale pre-freeze value
1000 after the unfreeze, so the first update after resuming (at t=3100
ms) integrates 2.1 s — the whole frozen interval included — and jumps to
x = -59 instead of the clock-safe -101 + 20 * 0.1 = -99. -/
theorem C2_resume_integrates_frozen_interval :
    frozenResumeEnemy.stopped = false
    ∧ frozenResumeEnemy.lastUpdate = 1000
    ∧ (updatePosition 3100 frozenResumeEnemy).x = -59
    ∧ (updatePosition 3100 frozenResumeEnemy).x ≠ -101 + 20 * ((3100 - 3000) / 1000) := by
  refine ⟨rfl, ?_, ?_, ?_⟩ <;>
    norm_num [frozenResumeEnemy, updatePosition, enemyOnReset, enemyOnStop, mkEnemy]

/-- C4: for a non-frozen obstacle, an update after `N` elapsed seconds
moves it to `x + increase * N`, except that it wraps to -101 exactly when
that value exceeds 505; the clock advances to `now`. -/
theorem C4_update_position_law (e : EnemyState) (now N : ℚ)
    (hstop : e.stopped = false) (hN : N = (now - e.lastUpdate) / 1000) :
    (updatePosition now e).x
        = (if e.x + e.increase * N > 505 then (-101 : ℚ) else e.x + e.increase * N)
    ∧ (updatePosition now e).lastUpdate = now := by
  subst hN
  simp [updatePosition, hstop]

/-- C4 witness: the law applied to the freshly built first enemy, updated
at t=2000 ms. -/
theorem C4_update_position_law_witness :
    (mkEnemy 0 1 20).stopped = false
    ∧ (updatePosition 2000 (mkEnemy 0 1 20)).x
        = (if (mkEnemy 0 1 20).x + (mkEnemy 0 1 20).increase
              * ((2000 - (mkEnemy 0 1 20).lastUpdate) / 1000) > 505
           then (-101 : ℚ)
           else (mkEnemy 0 1 20).x + (mkEnemy 0 1 20).increase
              * ((2000 - (mkEnemy 0 1 20).lastUpdate) / 1000)) :=
  ⟨rfl, (C4_update_position_law (mkEnemy 0 1 20) 2000
      ((2000 - (mkEnemy 0 1 20).lastUpdate) / 1000) rfl rfl).1⟩

/-- C3: a non-frozen player at row 1 (any column in the grid) that moves
up reaches row 0 and publishes exactly one WIN event with itself as the
source, synchronously within `moveUp` (the only further publish is the
STOP fan-out the game controller runs inside that same WIN publish). -/
theorem C3_moveUp_from_row_one_publishes_win (s : GameState)
    (hstop : s.player.stopped = false) (hy : s.player.y = 1)
    (hx0 : 0 ≤ s.player.x) (hx4 : s.player.x ≤ 4) :
    (moveUp s).published
        = s.published ++ [(GameEvent.win, EventSource.playerSource),
                          (GameEvent.stop, EventSource.gameSource)]
    ∧ ((moveUp s).published.filter fun pe => pe.1 = GameEvent.win)
        = (s.published.filter fun pe => pe.1 = GameEvent.win)
          ++ [(GameEvent.win, EventSource.playerSource)]
    ∧ (moveUp s).player.y = 0 := by
  simp [moveUp, emitEvent, gameOnWinLose, emitStop, logPublish, playerOnStop, fieldOnWin,
    hstop, hy, List.filter_append]

/-- C3 witness: the near-goal fixture. -/
theorem C3_moveUp_from_row_one_publishes_win_witness :
    nearGoalState.player.stopped = false ∧ nearGoalState.player.y = 1
    ∧ (moveUp nearGoalState).published
        = nearGoalState.published ++ [(GameEvent.win, EventSource.playerSource),
                                      (GameEvent.stop, EventSource.gameSource)] :=
  ⟨rfl, rfl,
    (C3_moveUp_from_row_one_publishes_win nearGoalState rfl rfl (by decide) (by decide)).1⟩

/-- C10: a non-frozen player already on row 0 that moves up keeps its
coordinates but publishes WIN again, with itself as the source: the WIN
publish is keyed on being at row 0 after the attempt, not on the
transition into row 0. -/
theorem C10_moveUp_at_goal_republishes_win (s : GameState)
    (hstop : s.player.stopped = false) (hy : s.player.y = 0) :
    (moveUp s).player.x = s.player.x
    ∧ (moveUp s).player.y = 0
    ∧ (moveUp s).published
        = s.published ++ [(GameEvent.win, EventSource.playerSource),
                          (GameEvent.stop, EventSource.gameSource)] := by
  simp [moveUp, emitEvent, gameOnWinLose, emitStop, logPublish, playerOnStop, fieldOnWin,
    hstop, hy]

/-- C10 witness: the at-goal fixture. -/
theorem C10_moveUp_at_goal_republishes_win_witness :
    atGoalState.player.stopped = false ∧ atGoalState.player.y = 0
    ∧ (moveUp atGoalState).published
        = atGoalState.published ++ [(GameEvent.win, EventSource.playerSource),
                                    (GameEvent.stop, EventSource.gameSource)] :=
  ⟨rfl, rfl, (C10_moveUp_at_goal_republishes_win atGoalState rfl rfl).2.2⟩

/-- C5: publishing WIN logs exactly one STOP publish, whose fan-out
(stopping the player and every enemy) completes within the WIN publish,
and schedules exactly one RESET for 2000 ms later; processing that RESET
restores the player's captured construction-time square, puts every
enemy at x = -101, and clears every entity's stop flag. -/
theorem C5_win_stop_reset (s : GameState) (src : EventSource) :
    (emitEvent GameEvent.win src s).published
        = s.published ++ [(GameEvent.win, src), (GameEvent.stop, EventSource.gameSource)]
    ∧ (emitEvent GameEvent.win src s).timers
        = s.timers ++ [(s.now + 2000, GameEvent.reset)]
    ∧ (emitEvent GameEvent.win src s).player.stopped = true
    ∧ (∀ e ∈ (emitEvent GameEvent.win src s).enemies, e.stopped = true)
    ∧ (emitEvent GameEvent.reset EventSource.gameSource
        (emitEvent GameEvent.win src s)).player.x = s.player.initialX
    ∧ (emitEvent GameEvent.reset EventSource.gameSource
        (emitEvent GameEvent.win src s)).player.y = s.player.initialY
    ∧ (emitEvent GameEvent.reset EventSource.gameSource
        (emitEvent GameEvent.win src s)).player.stopped = false
    ∧ ∀ e ∈ (emitEvent GameEvent.reset EventSource.gameSource
        (emitEvent GameEvent.win src s)).enemies, e.x = -101 ∧ e.stopped = false := by
  simp [emitEvent, gameOnWinLose, emitStop, logPublish, playerOnStop, playerOnReset,
    enemyOnStop, enemyOnReset, fieldOnWin, fieldOnReset, List.mem_map]

/-- C5 witness: the freshly constructed game. -/
theorem C5_win_stop_reset_witness :
    (emitEvent GameEvent.win EventSource.playerSource (initialGameState 0)).published
      = (initialGameState 0).published
        ++ [(GameEvent.win, EventSource.playerSource),
            (GameEvent.stop, EventSource.gameSource)] :=
  (C5_win_stop_reset (initialGameState 0) EventSource.playerSource).1

/-- C6: the player's grid coordinates always lie in column 0..4, row
0..5: the constructed game starts inside the grid, a frozen player
ignores every move, a non-frozen move that would exit the grid leaves the
coordinates unchanged, every move preserves the invariant, and every
event publish (RESET included, given the captured construction square is
inside the grid) preserves it too. -/
theorem C6_player_grid_invariant (s : GameState) :
    (∀ t0 : ℚ, inGrid (initialGameState t0).player)
    ∧ (s.player.stopped = true →
        moveUp s = s ∧ moveDown s = s ∧ moveLeft s = s ∧ moveRight s = s)
    ∧ (s.player.stopped = false →
        (s.player.y = 0 → (moveUp s).player.x = s.player.x ∧ (moveUp s).player.y = s.player.y)
        ∧ (s.player.y = 5 → moveDown s = s)
        ∧ (s.player.x = 0 → moveLeft s = s)
        ∧ (s.player.x = 4 → moveRight s = s))
    ∧ (inGrid s.player →
        inGrid (moveUp s).player ∧ inGrid (moveDown s).player
        ∧ inGrid (moveLeft s).player ∧ inGrid (moveRight s).player)
    ∧ (0 ≤ s.player.initialX → s.player.initialX ≤ 4 →
       0 ≤ s.player.initialY → s.player.initialY ≤ 5 →
       ∀ (e : GameEvent) (src : EventSource), inGrid s.player →
         inGrid (emitEvent e src s).player) := by
  refine ⟨?_, ?_, ?_, ?_, ?_⟩
  · intro t0
    simp [initialGameState, inGrid]
  · intro h
    simp [moveUp, moveDown, moveLeft, moveRight, h]
  · intro h
    refine ⟨?_, ?_, ?_, ?_⟩
    · intro hy
      simp [moveUp, emitEvent, gameOnWinLose, emitStop, logPublish, playerOnStop, fieldOnWin,
        h, hy]
    · intro hy
      simp [moveDown, h, hy]
    · intro hx
      simp [moveLeft, h, hx]
    · intro hx
      simp [moveRight, h, hx]
  · intro h
    refine ⟨?_, ?_, ?_, ?_⟩
    · simp only [moveUp, emitEvent, gameOnWinLose, emitStop, logPublish, playerOnStop]
      split_ifs <;> simp_all [inGrid] <;> omega
    · simp only [moveDown]
      split_ifs <;> simp_all [inGrid] <;> omega
    · simp only [moveLeft]
      split_ifs <;> simp_all [inGrid] <;> omega
    · simp only [moveRight]
      split_ifs <;> simp_all [inGrid] <;> omega
  · intro h1 h2 h3 h4 e src hin
    cases e <;>
      simp_all [emitEvent, gameOnWinLose, emitStop, logPublish, playerOnStop, playerOnReset,
        playerOnChangeCharacter, fieldOnWin, fieldOnLose, fieldOnReset, inGrid]

/-- C6 witness: a stopped player ignores `moveUp`, and the constructed
game starts inside the grid. -/
theorem C6_player_grid_invariant_witness :
    stoppedState.player.stopped = true ∧ moveUp stoppedState = stoppedState
    ∧ inGrid (initialGameState 0).player :=
  ⟨rfl, ((C6_player_grid_invariant stoppedState).2.1 rfl).1,
    (C6_player_grid_invariant stoppedState).1 0⟩

theorem busObserversOf_observe (events : List (String × List ℕ)) (e k : String) (h : ℕ) :
    busObserversOf (busObserveEvent events k h) e
      = if k = e then setInsert (busObserversOf events e) h else busObserversOf events e := by
  induction events with
  | nil =>
      by_cases hk : k = e <;> simp [busObserveEvent, busObserversOf, setInsert, hk]
  | cons p rest ih =>
      obtain ⟨k0, hs⟩ := p
      by_cases h1 : k0 = k
      · subst h1
        by_cases h2 : k0 = e
        · subst h2
          simp [busObserveEvent, busObserversOf]
        · simp [busObserveEvent, busObserversOf, h2]
      · by_cases h2 : k0 = e
        · subst h2
          have h3 : ¬(k = k0) := fun hh => h1 hh.symm
          simp [busObserveEvent, busObserversOf, h1, h3]
        · simp [busObserveEvent, busObserversOf, h1, h2, ih]

theorem busObserversOf_foldl (regs : List (String × ℕ)) (events : List (String × List ℕ))
    (e : String) :
    busObserversOf (regs.foldl (fun ev r => busObserveEvent ev r.1 r.2) events) e
      = regs.foldl (fun acc r => if r.1 = e then setInsert acc r.2 else acc)
          (busObserversOf events e) := by
  induction regs generalizing events with
  | nil => rfl
  | cons r rest ih =>
      simp only [List.foldl_cons]
      rw [ih, busObserversOf_observe]

theorem busObserversOf_buildBus (regs : List (String × ℕ)) (e : String) :
    busObserversOf (buildBus regs) e = registeredFor e regs := by
  unfold buildBus registeredFor
  rw [busObserversOf_foldl]
  rfl

theorem mem_setInsert (l : List ℕ) (a h : ℕ) : a ∈ setInsert l h ↔ a ∈ l ∨ a = h := by
  unfold setInsert
  split_ifs with hm
  · exact ⟨fun hx => Or.inl hx, fun hx => hx.elim id (fun hh => hh ▸ hm)⟩
  · simp

theorem setInsert_nodup (l : List ℕ) (h : ℕ) (hl : l.Nodup) : (setInsert l h).Nodup := by
  unfold setInsert
  split_ifs with hm
  · exact hl
  · simp [List.nodup_append, hl, hm]

theorem registeredFor_foldl_nodup (regs : List (String × ℕ)) (e : String) (acc : List ℕ)
    (hacc : acc.Nodup) :
    (regs.foldl (fun acc r => if r.1 = e then setInsert acc r.2 else acc) acc).Nodup := by
  induction regs generalizing acc with
  | nil => exact hacc
  | cons r rest ih =>
      simp only [List.foldl_cons]
      apply ih
      split_ifs with h1
      · exact setInsert_nodup acc r.2 hacc
      · exact hacc

theorem mem_registeredFor_foldl (regs : List (String × ℕ)) (e : String) (acc : List ℕ)
    (x : ℕ) :
    x ∈ regs.foldl (fun acc r => if r.1 = e then setInsert acc r.2 else acc) acc
      ↔ x ∈ acc ∨ (e, x) ∈ regs := by
  induction regs generalizing acc with
  | nil => simp
  | cons r rest ih =>
      simp only [List.foldl_cons, ih, List.mem_cons]
      by_cases h1 : r.1 = e
      · subst h1
        simp only [if_true, mem_setInsert, Prod.ext_iff]
        constructor
        · intro hx
          tauto
        · intro hx
          rcases hx with hx | ⟨he, hx⟩ | hx <;> tauto
      · have h2 : ∀ hx : (e, x) = r, False := fun hx => h1 (congrArg Prod.fst hx.symm)
        simp only [h1, if_false]
        constructor
        · intro hx
          tauto
        · intro hx
          rcases hx with hx | hx | hx <;> tauto

/-- C7: publishing an event on a bus built from any registration sequence
invokes exactly the handlers currently registered for that event — each
exactly once (the observer `Set` deduplicates), in registration order
(the trace is the first-registration-order list characterised by
`registeredFor`) — and the resulting state is the left fold of the
handlers, i.e. each handler is awaited to completion on the state left by
the previous one; the single-threaded fold is sequential, never
concurrent. -/
theorem C7_publish_sequential_fanout {σ : Type} (regs : List (String × ℕ)) (e : String)
    (applyHandler : ℕ → σ → σ) (st : σ) :
    (busEmitEvent (buildBus regs) e applyHandler st).2 = registeredFor e regs
    ∧ (registeredFor e regs).Nodup
    ∧ (∀ h : ℕ, h ∈ registeredFor e regs ↔ (e, h) ∈ regs)
    ∧ (busEmitEvent (buildBus regs) e applyHandler st).1
        = (registeredFor e regs).foldl (fun acc h => applyHandler h acc) st := by
  refine ⟨?_, ?_, ?_, ?_⟩
  · simp [busEmitEvent, busObserversOf_buildBus]
  · exact registeredFor_foldl_nodup regs e [] (List.nodup_nil)
  · intro h
    unfold registeredFor
    rw [mem_registeredFor_foldl]
    simp
  · simp [busEmitEvent, busObserversOf_buildBus]

/-- C7 witness: a concrete registration sequence with a duplicate
registration and several events. -/
theorem C7_publish_sequential_fanout_witness :
    (busEmitEvent (buildBus [("win", 5), ("stop", 1), ("win", 7), ("win", 5), ("lose", 2)])
        "win" (fun h acc => acc ++ [h]) ([] : List ℕ)).2
      = registeredFor "win" [("win", 5), ("stop", 1), ("win", 7), ("win", 5), ("lose", 2)] :=
  (C7_publish_sequential_fanout
    [("win", 5), ("stop", 1), ("win", 7), ("win", 5), ("lose", 2)] "win"
    (fun h acc => acc ++ [h]) ([] : List ℕ)).1

end Frogger
